import Mathlib

/-!
Shallow embedding of the animation logic of the terminal-themed website:
the typewriter utilities and the glitch animation controller
(src/src/utils/typewriter.js), the intro controller and the modal
controller (the unnamed controller modules), the session-gated typewriter
hook (src/src/hooks/useSessionAnimation.ts) and the TerminalPrompt and
ProgressBar components (src/src/components/TerminalPrompt.tsx).

Timers are modelled by a pending flag in the state: scheduling a timeout
sets it, clearing the timeout resets it, and a timer-fire event is a
no-op unless the flag is set.  React state updates are modelled as
immediate, and an effect re-run is modelled as "run the cleanup of the
previous run, then the body", which is the order React guarantees within
a commit.  `sessionStorage` is modelled by a boolean flag plus a counter
of `setItem` calls, so "sets the flag exactly once" is expressible.
-/

namespace Typewriter

/-- The slice of an HTMLElement the typewriter touches: `textContent`
and the `data-text` attribute. -/
structure Elem where
  textContent : List Char
  dataText : Option (List Char)
deriving DecidableEq

/-- State of one `typeWriter(text, element, options)` run: the interval
is live while `running` is set, and the promise is `resolved` at the
end of the run. -/
structure TWRun where
  element : Elem
  index : Nat
  running : Bool
  resolved : Bool
  onCompleteFired : Bool
  onCharacterCount : Nat
deriving DecidableEq

/-- Body of `typeWriter` after the element check: empty (falsy) text
resolves at once and touches nothing, otherwise the interval starts at
index 0. -/
def typeWriterStart (text : List Char) (el : Elem) : TWRun :=
  if text = [] then
    { element := el, index := 0, running := false, resolved := true,
      onCompleteFired := false, onCharacterCount := 0 }
  else
    { element := el, index := 0, running := true, resolved := false,
      onCompleteFired := false, onCharacterCount := 0 }

/-- `typeWriter(text, element)`: a missing element throws
`typeWriter: element is required`. -/
def typeWriter (text : List Char) (element : Option Elem) : Except String TWRun :=
  match element with
  | none => .error "typeWriter: element is required"
  | some el => .ok (typeWriterStart text el)

/-- One interval tick of `typeWriter`.  A cleared interval no longer
ticks, which the `running` guard models. -/
def tick (text : List Char) (r : TWRun) : TWRun :=
  if r.running = false then r
  else if r.index < text.length then
    let newContent := r.element.textContent ++ [text.getD r.index ' ']
    { r with
      element := { textContent := newContent, dataText := some newContent },
      onCharacterCount := r.onCharacterCount + 1,
      index := r.index + 1 }
  else
    { r with running := false, resolved := true, onCompleteFired := true }

/-- State of one `typeWriterCancellable` run. -/
structure TWCRun where
  element : Elem
  index : Nat
  running : Bool
  cancelled : Bool
  resolved : Bool
  rejected : Bool
  onCompleteFired : Bool
deriving DecidableEq

/-- Body of `typeWriterCancellable` after the element check: empty
text resolves immediately, otherwise typing starts. -/
def typeWriterCancellableStart (text : List Char) (el : Elem) : TWCRun :=
  if text = [] then
    { element := el, index := 0, running := false, cancelled := false,
      resolved := true, rejected := false, onCompleteFired := false }
  else
    { element := el, index := 0, running := true, cancelled := false,
      resolved := false, rejected := false, onCompleteFired := false }

/-- `typeWriterCancellable(text, element)`: a missing element rejects
the returned promise with `typeWriterCancellable: element is required`. -/
def typeWriterCancellable (text : List Char) (element : Option Elem) :
    Except String TWCRun :=
  match element with
  | none => .error "typeWriterCancellable: element is required"
  | some el => .ok (typeWriterCancellableStart text el)

/-- The `cancel` closure: sets the cancelled flag and clears the
interval if one is live. -/
def cancel (r : TWCRun) : TWCRun :=
  { r with cancelled := true, running := false }

/-- One interval tick of `typeWriterCancellable`: a cancelled run
rejects, otherwise a character is appended or the run completes. -/
def tickC (text : List Char) (r : TWCRun) : TWCRun :=
  if r.running = false then r
  else if r.cancelled then
    { r with running := false, rejected := true }
  else if r.index < text.length then
    let newContent := r.element.textContent ++ [text.getD r.index ' ']
    { r with
      element := { textContent := newContent, dataText := some newContent },
      index := r.index + 1 }
  else
    { r with running := false, resolved := true, onCompleteFired := true }

/-- `instantText(text, element)`: throws on a missing element,
otherwise sets both `textContent` and `data-text` to the full text. -/
def instantText (text : List Char) (element : Option Elem) : Except String Elem :=
  match element with
  | none => .error "instantText: element is required"
  | some _ => .ok { textContent := text, dataText := some text }

end Typewriter

namespace GlitchAnimator

/-- The timer-relevant state of a `GlitchAnimator`: the `isRunning`
flag and whether the scheduled-glitch timeout (`timeoutId`) is live. -/
structure State where
  isRunning : Bool
  timeoutPending : Bool
deriving DecidableEq

/-- The constructor: not running, no timeout scheduled. -/
def mkState : State :=
  { isRunning := false, timeoutPending := false }

/-- `_scheduleNextGlitch`: a no-op unless the animator is running,
otherwise a timeout for the next glitch is scheduled. -/
def scheduleNextGlitch (g : State) : State :=
  if g.isRunning = false then g else { g with timeoutPending := true }

/-- `start`: a no-op while already running, otherwise sets the running
flag and schedules the first glitch. -/
def start (g : State) : State :=
  if g.isRunning then g
  else scheduleNextGlitch { g with isRunning := true }

/-- `stop`: clears the running flag and the scheduled timeout. -/
def stop (_g : State) : State :=
  { isRunning := false, timeoutPending := false }

end GlitchAnimator

namespace IntroController

/-- The state of an `IntroController` instance together with the slice
of the environment it touches: the intro element resolved by id, the
session-storage flag at `storageKey`, and counters for the callbacks. -/
structure State where
  elementPresent : Bool
  isSkipped : Bool
  isComplete : Bool
  sessionFlag : Bool
  sessionSetCount : Nat
  introHidden : Bool
  introRemoved : Bool
  handlersAttached : Bool
  onSkipFired : Nat
  onCompleteFired : Nat
deriving DecidableEq

/-- The constructor merges defaults and throws when `introId` is
missing (a falsy config value). -/
def mkController (introId : Option String) : Except String String :=
  match introId with
  | none => .error "IntroController: introId is required"
  | some i => .ok i

/-- `init(showOnRefresh, isReload)`: missing element warns and
returns false; otherwise `shouldShow` is `isReload` when
`showOnRefresh` is set and the negated session flag when not.  When the
intro is not shown it is removed; when shown, skip handlers attach. -/
def init (showOnRefresh isReload : Bool) (s : State) : State × Bool :=
  if s.elementPresent = false then (s, false)
  else
    let shouldShow := if showOnRefresh then isReload else !s.sessionFlag
    if shouldShow = false then ({ s with introRemoved := true }, false)
    else ({ s with handlersAttached := true }, true)

/-- `_hideIntro`: adds the hidden class, schedules removal and removes
the skip handlers (a no-op without an element). -/
def hideIntro (s : State) : State :=
  if s.elementPresent = false then s
  else { s with introHidden := true, handlersAttached := false }

/-- `skip`: a no-op once skipped or complete; otherwise marks the run
skipped, fires `onSkip` and hides the intro.  Note that it does not
write the session-storage flag. -/
def skip (s : State) : State :=
  if s.isSkipped || s.isComplete then s
  else hideIntro { s with isSkipped := true, onSkipFired := s.onSkipFired + 1 }

/-- `complete`: a no-op once skipped or complete; otherwise marks the
run complete, writes the session flag, fires `onComplete` and hides
the intro. -/
def complete (s : State) : State :=
  if s.isSkipped || s.isComplete then s
  else hideIntro
    { s with
      isComplete := true
      sessionFlag := true
      sessionSetCount := s.sessionSetCount + 1
      onCompleteFired := s.onCompleteFired + 1 }

end IntroController

namespace ModalController

/-- The initialization-relevant state of a `ModalController`. -/
structure State where
  modalFound : Bool
  isOpen : Bool
  listenersAttached : Bool
deriving DecidableEq

/-- `_init`: a missing modal element warns and early-returns with no
listeners attached; otherwise trigger and close elements resolve and
listeners attach. -/
def initModal (modalPresent : Bool) : State :=
  if modalPresent = false then
    { modalFound := false, isOpen := false, listenersAttached := false }
  else
    { modalFound := true, isOpen := false, listenersAttached := true }

end ModalController

namespace SessionTypewriter

/-- State of one `useTypewriterAnimation(text, storageKey, delay)`
instance: the session flag with its `setItem` counter, the hook state
(`hasPlayed`, `displayText`, `isComplete`), the two refs and the
pending character timeout. -/
structure State where
  sessionFlag : Bool
  markCount : Nat
  hasPlayed : Bool
  didInit : Bool
  displayText : List Char
  isComplete : Bool
  indexRef : Nat
  timerPending : Bool
deriving DecidableEq

/-- Component mount with the session flag as found in storage. -/
def mount (flag0 : Bool) : State :=
  { sessionFlag := flag0, markCount := 0, hasPlayed := false,
    didInit := false, displayText := [], isComplete := false,
    indexRef := 0, timerPending := false }

/-- `markAsPlayed`: `sessionStorage.setItem(storageKey, true)` plus
`setHasPlayed(true)`. -/
def markAsPlayed (s : State) : State :=
  { s with
    sessionFlag := true
    markCount := s.markCount + 1
    hasPlayed := true }

/-- One React commit of the hook: the cleanup of the previous
animation-effect run clears the pending timeout, then the
`useSessionAnimation` init effect (first commit only), the display-sync
effect and the animation-effect body run in hook order. -/
def commit (text : List Char) (s : State) : State :=
  let s1 := { s with timerPending := false }
  let s2 :=
    if s1.didInit then s1
    else { s1 with didInit := true, hasPlayed := s1.hasPlayed || s1.sessionFlag }
  let s3 :=
    if s2.hasPlayed then
      { s2 with
        displayText := text
        isComplete := true
        indexRef := text.length }
    else s2
  if s3.hasPlayed || s3.isComplete then s3
  else if s3.indexRef < text.length then { s3 with timerPending := true }
  else if s3.indexRef = text.length then
    markAsPlayed { s3 with isComplete := true }
  else s3

/-- The scheduled character timeout fires: appends the character at
`indexRef` and advances the ref. -/
def timerFire (text : List Char) (s : State) : State :=
  if s.timerPending then
    { s with
      displayText := s.displayText ++ [text.getD s.indexRef ' ']
      indexRef := s.indexRef + 1
      timerPending := false }
  else s

/-- The `skip` function returned by the hook: a no-op once complete;
otherwise clears the pending timeout, reveals the full text, marks the
run complete and calls `markAsPlayed`. -/
def skip (text : List Char) (s : State) : State :=
  if s.isComplete then s
  else markAsPlayed
    { s with
      timerPending := false
      displayText := text
      indexRef := text.length
      isComplete := true }

/-- Unmount cleanup of the animation effect: clears the pending
character timeout. -/
def cleanup (s : State) : State :=
  { s with timerPending := false }

/-- The events the hook instance can experience. -/
inductive Event
  | commitE
  | timerE
  | skipE
  | cleanupE
deriving DecidableEq

/-- Event dispatch. -/
def step (text : List Char) (s : State) : Event → State
  | .commitE => commit text s
  | .timerE => timerFire text s
  | .skipE => skip text s
  | .cleanupE => cleanup s

/-- The state after a mount followed by a sequence of events. -/
def run (text : List Char) (flag0 : Bool) (evs : List Event) : State :=
  evs.foldl (step text) (mount flag0)

/-- The inductive invariant of the hook: the reveal index is bounded by
the text length, a pending timeout implies the index is still short of
the length, the `setItem` counter stays at 0 until completion and never
passes 1, and a completed run has no pending timeout. -/
def Inv (text : List Char) (s : State) : Prop :=
  s.indexRef ≤ text.length ∧
  (s.timerPending = true → s.indexRef < text.length) ∧
  (s.isComplete = false → s.markCount = 0) ∧
  (s.isComplete = true → s.timerPending = false) ∧
  s.markCount ≤ 1

/-- A terminal configuration of the hook: complete, flagged, full text
revealed, no timer pending. -/
def Done (text : List Char) (s : State) : Prop :=
  s.isComplete = true ∧ s.hasPlayed = true ∧ s.sessionFlag = true ∧
  s.displayText = text ∧ s.indexRef = text.length ∧ s.timerPending = false

end SessionTypewriter

namespace TerminalPrompt

/-- State of one `TerminalPrompt` instance: component state, the
session flag with its `setItem` counter and the pending character
timeout. -/
structure State where
  displayText : List Char
  currentIndex : Nat
  hasPlayed : Bool
  sessionFlag : Bool
  markCount : Nat
  timerPending : Bool
deriving DecidableEq

/-- Component mount with the session flag as found in storage. -/
def mount (flag0 : Bool) : State :=
  { displayText := [], currentIndex := 0, hasPlayed := false,
    sessionFlag := flag0, markCount := 0, timerPending := false }

/-- The animation effect: after the cleanup of the previous run clears
any pending timeout, a set session flag short-circuits to the full
text, an index below the length schedules the next character, and
reaching the length while not yet played writes the session flag. -/
def effect (text : List Char) (s : State) : State :=
  let s1 := { s with timerPending := false }
  if s1.sessionFlag then
    { s1 with
      displayText := text
      currentIndex := text.length
      hasPlayed := true }
  else if s1.currentIndex < text.length then
    { s1 with timerPending := true }
  else if s1.currentIndex = text.length && !s1.hasPlayed then
    { s1 with
      sessionFlag := true
      markCount := s1.markCount + 1
      hasPlayed := true }
  else s1

/-- The scheduled character timeout fires. -/
def timerFire (text : List Char) (s : State) : State :=
  if s.timerPending then
    { s with
      displayText := s.displayText ++ [text.getD s.currentIndex ' ']
      currentIndex := s.currentIndex + 1
      timerPending := false }
  else s

/-- The keydown skip handler: a no-op once played; otherwise reveals
the full text and writes the session flag.  The state updates trigger
a synchronous re-render, so the effect runs (cleanup first) before any
timer can fire, which the trailing `effect` models. -/
def keydown (text : List Char) (s : State) : State :=
  if s.hasPlayed then s
  else effect text
    { s with
      displayText := text
      currentIndex := text.length
      sessionFlag := true
      markCount := s.markCount + 1
      hasPlayed := true }

/-- The events a `TerminalPrompt` instance can experience. -/
inductive Event
  | effectE
  | timerE
  | keyE
deriving DecidableEq

/-- Event dispatch. -/
def step (text : List Char) (s : State) : Event → State
  | .effectE => effect text s
  | .timerE => timerFire text s
  | .keyE => keydown text s

/-- The state after a mount followed by a sequence of events. -/
def run (text : List Char) (flag0 : Bool) (evs : List Event) : State :=
  evs.foldl (step text) (mount flag0)

end TerminalPrompt

namespace ProgressBar

/-- One 15 ms timer step of the `ProgressBar` fill animation:
`currentPercent` advances by 3, clamped to the target percentage. -/
def stepPB (percentage cp : Nat) : Nat :=
  if cp < percentage then min (cp + 3) percentage else cp

/-- `currentPercent` after `n` timer steps, starting from the initial
state 0. -/
def currentPercent (percentage n : Nat) : Nat :=
  Nat.iterate (stepPB percentage) n 0

/-- `filled = Math.floor((currentPercent / 100) * width)`. -/
def filled (cp width : Nat) : Nat :=
  cp * width / 100

/-- `empty = width - filled`. -/
def emptyCount (cp width : Nat) : Nat :=
  width - filled cp width

/-- The rendered bar: `filled` full blocks followed by `empty` shade
blocks. -/
def renderBar (cp width : Nat) : List Char :=
  List.replicate (filled cp width) '█' ++ List.replicate (emptyCount cp width) '░'

end ProgressBar

/-! ### Helper lemmas for the `typeWriter` interval machine -/

theorem tw_tick_mono (text : List Char) (r : Typewriter.TWRun) :
    r.index ≤ (Typewriter.tick text r).index := by
  simp only [Typewriter.tick]
  split_ifs <;> simp

theorem tw_tick_le (text : List Char) (r : Typewriter.TWRun)
    (h : r.index ≤ text.length) :
    (Typewriter.tick text r).index ≤ text.length := by
  simp only [Typewriter.tick]
  split_ifs <;> (try simp) <;> omega

theorem tw_start_le (text : List Char) (el : Typewriter.Elem) :
    (Typewriter.typeWriterStart text el).index ≤ text.length := by
  simp only [Typewriter.typeWriterStart]
  split_ifs <;> simp

theorem tw_iter_le (text : List Char) (el : Typewriter.Elem) (n : Nat) :
    (Nat.iterate (Typewriter.tick text) n
      (Typewriter.typeWriterStart text el)).index ≤ text.length := by
  induction n with
  | zero => exact tw_start_le text el
  | succ n ih =>
    rw [Function.iterate_succ_apply']
    exact tw_tick_le text _ ih

theorem twc_tick_stopped (text : List Char) (r : Typewriter.TWCRun)
    (h : r.running = false) :
    Typewriter.tickC text r = r := by
  simp [Typewriter.tickC, h]

theorem twc_cancel_iter (text : List Char) (r : Typewriter.TWCRun) (n : Nat) :
    Nat.iterate (Typewriter.tickC text) n (Typewriter.cancel r) =
      Typewriter.cancel r := by
  induction n with
  | zero => rfl
  | succ n ih =>
    rw [Function.iterate_succ_apply', ih]
    exact twc_tick_stopped text _ rfl

/-! ### Helper lemmas for the session typewriter hook machine -/

theorem st_inv_mount (text : List Char) (flag0 : Bool) :
    SessionTypewriter.Inv text (SessionTypewriter.mount flag0) := by
  simp [SessionTypewriter.Inv, SessionTypewriter.mount]

theorem st_inv_step (text : List Char) (s : SessionTypewriter.State)
    (e : SessionTypewriter.Event) (h : SessionTypewriter.Inv text s) :
    SessionTypewriter.Inv text (SessionTypewriter.step text s e) := by
  obtain ⟨h1, h2, h3, h4, h5⟩ := h
  cases e with
  | commitE =>
    simp only [SessionTypewriter.step, SessionTypewriter.commit,
      SessionTypewriter.markAsPlayed, SessionTypewriter.Inv]
    split_ifs <;> simp_all <;> omega
  | timerE =>
    simp only [SessionTypewriter.step, SessionTypewriter.timerFire,
      SessionTypewriter.Inv]
    split_ifs <;> simp_all <;> omega
  | skipE =>
    simp only [SessionTypewriter.step, SessionTypewriter.skip,
      SessionTypewriter.markAsPlayed, SessionTypewriter.Inv]
    split_ifs <;> simp_all <;> omega
  | cleanupE =>
    simp only [SessionTypewriter.step, SessionTypewriter.cleanup,
      SessionTypewriter.Inv]
    simp_all

theorem st_inv_foldl (text : List Char) (evs : List SessionTypewriter.Event)
    (s : SessionTypewriter.State) (h : SessionTypewriter.Inv text s) :
    SessionTypewriter.Inv text (evs.foldl (SessionTypewriter.step text) s) := by
  induction evs generalizing s with
  | nil => exact h
  | cons e evs ih =>
    simp only [List.foldl_cons]
    exact ih _ (st_inv_step text s e h)

theorem st_inv_run (text : List Char) (flag0 : Bool)
    (evs : List SessionTypewriter.Event) :
    SessionTypewriter.Inv text (SessionTypewriter.run text flag0 evs) :=
  st_inv_foldl text evs _ (st_inv_mount text flag0)

theorem st_step_mono (text : List Char) (s : SessionTypewriter.State)
    (e : SessionTypewriter.Event) (h : SessionTypewriter.Inv text s) :
    s.indexRef ≤ (SessionTypewriter.step text s e).indexRef := by
  obtain ⟨h1, h2, h3, h4, h5⟩ := h
  cases e with
  | commitE =>
    simp only [SessionTypewriter.step, SessionTypewriter.commit,
      SessionTypewriter.markAsPlayed]
    split_ifs <;> simp_all
  | timerE =>
    simp only [SessionTypewriter.step, SessionTypewriter.timerFire]
    split_ifs <;> simp
  | skipE =>
    simp only [SessionTypewriter.step, SessionTypewriter.skip,
      SessionTypewriter.markAsPlayed]
    split_ifs <;> simp_all
  | cleanupE =>
    simp [SessionTypewriter.step, SessionTypewriter.cleanup]

theorem st_done_step (text : List Char) (s : SessionTypewriter.State)
    (e : SessionTypewriter.Event) (h : SessionTypewriter.Done text s) :
    SessionTypewriter.Done text (SessionTypewriter.step text s e) ∧
      (SessionTypewriter.step text s e).markCount = s.markCount := by
  obtain ⟨h1, h2, h3, h4, h5, h6⟩ := h
  cases e with
  | commitE =>
    simp only [SessionTypewriter.step, SessionTypewriter.commit,
      SessionTypewriter.markAsPlayed, SessionTypewriter.Done]
    split_ifs <;> simp_all
  | timerE =>
    simp only [SessionTypewriter.step, SessionTypewriter.timerFire,
      SessionTypewriter.Done]
    split_ifs <;> simp_all
  | skipE =>
    simp only [SessionTypewriter.step, SessionTypewriter.skip,
      SessionTypewriter.markAsPlayed, SessionTypewriter.Done]
    split_ifs <;> simp_all
  | cleanupE =>
    simp_all [SessionTypewriter.step, SessionTypewriter.cleanup,
      SessionTypewriter.Done]

theorem st_done_foldl (text : List Char) (evs : List SessionTypewriter.Event)
    (s : SessionTypewriter.State) (h : SessionTypewriter.Done text s) :
    SessionTypewriter.Done text (evs.foldl (SessionTypewriter.step text) s) ∧
      (evs.foldl (SessionTypewriter.step text) s).markCount = s.markCount := by
  induction evs generalizing s with
  | nil => exact ⟨h, rfl⟩
  | cons e evs ih =>
    simp only [List.foldl_cons]
    obtain ⟨hd, hm⟩ := st_done_step text s e h
    obtain ⟨hd2, hm2⟩ := ih _ hd
    exact ⟨hd2, hm2.trans hm⟩

theorem st_skip_running (text : List Char) (s : SessionTypewriter.State)
    (h : s.isComplete = false) :
    (SessionTypewriter.skip text s).displayText = text ∧
    (SessionTypewriter.skip text s).sessionFlag = true ∧
    (SessionTypewriter.skip text s).markCount = s.markCount + 1 ∧
    (SessionTypewriter.skip text s).timerPending = false ∧
    SessionTypewriter.Done text (SessionTypewriter.skip text s) := by
  simp [SessionTypewriter.skip, SessionTypewriter.markAsPlayed,
    SessionTypewriter.Done, h]

/-! ### Helper lemmas for the TerminalPrompt machine -/

theorem tp_flag_step (text : List Char) (s : TerminalPrompt.State)
    (e : TerminalPrompt.Event) (h1 : s.sessionFlag = true)
    (h2 : s.timerPending = false) :
    (TerminalPrompt.step text s e).sessionFlag = true ∧
      (TerminalPrompt.step text s e).timerPending = false := by
  cases e with
  | effectE =>
    simp [TerminalPrompt.step, TerminalPrompt.effect, h1]
  | timerE =>
    simp [TerminalPrompt.step, TerminalPrompt.timerFire, h2, h1]
  | keyE =>
    simp only [TerminalPrompt.step, TerminalPrompt.keydown, TerminalPrompt.effect]
    split_ifs <;> simp_all

theorem tp_flag_foldl (text : List Char) (evs : List TerminalPrompt.Event)
    (s : TerminalPrompt.State) (h1 : s.sessionFlag = true)
    (h2 : s.timerPending = false) :
    (evs.foldl (TerminalPrompt.step text) s).sessionFlag = true ∧
      (evs.foldl (TerminalPrompt.step text) s).timerPending = false := by
  induction evs generalizing s with
  | nil => exact ⟨h1, h2⟩
  | cons e evs ih =>
    simp only [List.foldl_cons]
    obtain ⟨g1, g2⟩ := tp_flag_step text s e h1 h2
    exact ih _ g1 g2

/-! ### Helper lemmas for the IntroController -/

theorem ic_hideIntro_fields (s : IntroController.State) :
    (IntroController.hideIntro s).isSkipped = s.isSkipped ∧
    (IntroController.hideIntro s).isComplete = s.isComplete ∧
    (IntroController.hideIntro s).sessionFlag = s.sessionFlag ∧
    (IntroController.hideIntro s).sessionSetCount = s.sessionSetCount ∧
    (IntroController.hideIntro s).onSkipFired = s.onSkipFired ∧
    (IntroController.hideIntro s).onCompleteFired = s.onCompleteFired := by
  simp only [IntroController.hideIntro]
  split_ifs <;> simp

theorem ic_skip_flag (s : IntroController.State) :
    (IntroController.skip s).sessionFlag = s.sessionFlag ∧
      (IntroController.skip s).sessionSetCount = s.sessionSetCount ∧
      (IntroController.skip s).onCompleteFired = s.onCompleteFired := by
  simp only [IntroController.skip]
  split_ifs with hg
  · exact ⟨rfl, rfl, rfl⟩
  · obtain ⟨_, _, g3, g4, _, g6⟩ := ic_hideIntro_fields
      { s with isSkipped := true, onSkipFired := s.onSkipFired + 1 }
    exact ⟨g3, g4, g6⟩

/-! ### Helper lemmas for the ProgressBar -/

theorem pb_step_le (p cp : Nat) (h : cp ≤ p) : ProgressBar.stepPB p cp ≤ p := by
  simp only [ProgressBar.stepPB]
  split_ifs with hlt
  · exact min_le_right _ _
  · exact h

theorem pb_cp_le (p n : Nat) : ProgressBar.currentPercent p n ≤ p := by
  induction n with
  | zero => exact Nat.zero_le p
  | succ n ih =>
    have : ProgressBar.currentPercent p (n + 1) =
        ProgressBar.stepPB p (ProgressBar.currentPercent p n) := by
      simp only [ProgressBar.currentPercent]
      rw [Function.iterate_succ_apply']
    rw [this]
    exact pb_step_le p _ ih

theorem pb_filled_le (cp width : Nat) (h : cp ≤ 100) :
    ProgressBar.filled cp width ≤ width := by
  have h1 : cp * width ≤ 100 * width := Nat.mul_le_mul_right width h
  have h2 : cp * width / 100 ≤ 100 * width / 100 := Nat.div_le_div_right h1
  have h3 : 100 * width / 100 = width := Nat.mul_div_cancel_left width (by omega)
  simpa [ProgressBar.filled, h3] using h2

/-! ### Claim theorems -/

/-- C4: for every text and every sequence of commits, timer ticks, skip
and cleanup events, the character-reveal index of the
`useTypewriterAnimation` machine is monotonically nondecreasing and
never exceeds the text length, and likewise for the `typeWriter`
interval machine. -/
theorem reveal_index_monotone_and_bounded
    (text : List Char) (flag0 : Bool) (evs : List SessionTypewriter.Event)
    (e : SessionTypewriter.Event) (el : Typewriter.Elem) (n : Nat) :
    (SessionTypewriter.run text flag0 evs).indexRef ≤ text.length ∧
    (SessionTypewriter.run text flag0 evs).indexRef ≤
      (SessionTypewriter.step text (SessionTypewriter.run text flag0 evs) e).indexRef ∧
    (Nat.iterate (Typewriter.tick text) n
      (Typewriter.typeWriterStart text el)).index ≤ text.length ∧
    (Nat.iterate (Typewriter.tick text) n
      (Typewriter.typeWriterStart text el)).index ≤
      (Typewriter.tick text (Nat.iterate (Typewriter.tick text) n
        (Typewriter.typeWriterStart text el))).index :=
  ⟨(st_inv_run text flag0 evs).1,
   st_step_mono text _ e (st_inv_run text flag0 evs),
   tw_iter_le text el n,
   tw_tick_mono text _⟩

/-- C8: calling `typeWriter` or `typeWriterCancellable` with an empty
(falsy) text resolves immediately, leaves the element's `textContent`
and `data-text` untouched, and never fires `onComplete`. -/
theorem empty_text_resolves_without_effects (el : Typewriter.Elem) :
    Typewriter.typeWriter [] (some el) = Except.ok
      { element := el, index := 0, running := false, resolved := true,
        onCompleteFired := false, onCharacterCount := 0 } ∧
    Typewriter.typeWriterCancellable [] (some el) = Except.ok
      { element := el, index := 0, running := false, cancelled := false,
        resolved := true, rejected := false, onCompleteFired := false } :=
  ⟨rfl, rfl⟩

/-- C10: `GlitchAnimator.start` while already running is a no-op; after
`stop` the scheduled timeout is cleared and `_scheduleNextGlitch` is a
no-op because of the `isRunning` guard, until `start` is called again
(which does schedule a glitch). -/
theorem glitch_start_stop_guards (g : GlitchAnimator.State) :
    (g.isRunning = true → GlitchAnimator.start g = g) ∧
    (GlitchAnimator.stop g).isRunning = false ∧
    (GlitchAnimator.stop g).timeoutPending = false ∧
    GlitchAnimator.scheduleNextGlitch (GlitchAnimator.stop g) =
      GlitchAnimator.stop g ∧
    (GlitchAnimator.start (GlitchAnimator.stop g)).timeoutPending = true :=
  ⟨fun h => by simp [GlitchAnimator.start, h], rfl, rfl, rfl, rfl⟩

/-- Witness for C10 at a concrete running animator. -/
theorem glitch_start_stop_guards_witness :
    GlitchAnimator.start { isRunning := true, timeoutPending := true } =
      { isRunning := true, timeoutPending := true } :=
  (glitch_start_stop_guards { isRunning := true, timeoutPending := true }).1 rfl

/-- C9: for every render of `ProgressBar` with `percentage ≤ 100`, the
animated percent starts at 0, never exceeds the target percentage, and
the rendered bar always holds exactly `width` characters (filled plus
empty equals width). -/
theorem progress_bar_invariants (percentage width n : Nat)
    (hp : percentage ≤ 100) :
    ProgressBar.currentPercent percentage 0 = 0 ∧
    ProgressBar.currentPercent percentage n ≤ percentage ∧
    ProgressBar.filled (ProgressBar.currentPercent percentage n) width +
      ProgressBar.emptyCount (ProgressBar.currentPercent percentage n) width
      = width ∧
    (ProgressBar.renderBar (ProgressBar.currentPercent percentage n) width).length
      = width := by
  have hcp := pb_cp_le percentage n
  have hf := pb_filled_le (ProgressBar.currentPercent percentage n) width
    (hcp.trans hp)
  refine ⟨rfl, hcp, ?_, ?_⟩
  · simp only [ProgressBar.emptyCount]
    omega
  · simp only [ProgressBar.renderBar, ProgressBar.emptyCount,
      List.length_append, List.length_replicate]
    omega

/-- Witness for C9 at percentage 70, width 10, after 40 timer steps. -/
theorem progress_bar_invariants_witness :
    ProgressBar.currentPercent 70 0 = 0 ∧
    ProgressBar.currentPercent 70 40 ≤ 70 ∧
    ProgressBar.filled (ProgressBar.currentPercent 70 40) 10 +
      ProgressBar.emptyCount (ProgressBar.currentPercent 70 40) 10 = 10 ∧
    (ProgressBar.renderBar (ProgressBar.currentPercent 70 40) 10).length = 10 :=
  progress_bar_invariants 70 10 40 (by decide)

/-- C6: skipping an intro never fires the completion callback —
`IntroController.skip` leaves the `onComplete` counter unchanged and
makes a later `complete` a no-op, and a cancelled
`typeWriterCancellable` run never fires `onComplete` nor resolves under
any number of further ticks. -/
theorem skip_never_fires_on_complete (is : IntroController.State)
    (text : List Char) (r : Typewriter.TWCRun) (n : Nat) :
    (IntroController.skip is).onCompleteFired = is.onCompleteFired ∧
    IntroController.complete (IntroController.skip is) =
      IntroController.skip is ∧
    (Nat.iterate (Typewriter.tickC text) n
      (Typewriter.cancel r)).onCompleteFired = r.onCompleteFired ∧
    (Nat.iterate (Typewriter.tickC text) n
      (Typewriter.cancel r)).resolved = r.resolved := by
  refine ⟨(ic_skip_flag is).2.2, ?_, ?_, ?_⟩
  · by_cases hg : (is.isSkipped || is.isComplete) = true
    · have hskip : IntroController.skip is = is := by
        simp [IntroController.skip, hg]
      rw [hskip]
      simp [IntroController.complete, hg]
    · have hsk : (IntroController.skip is).isSkipped = true := by
        have h2 := (ic_hideIntro_fields
          { is with isSkipped := true, onSkipFired := is.onSkipFired + 1 }).1
        simp only [IntroController.skip, hg, if_false, Bool.false_eq_true,
          if_neg, not_false_iff]
        exact h2
      simp [IntroController.complete, hsk]
  · rw [twc_cancel_iter]
    rfl
  · rw [twc_cancel_iter]
    rfl

/-- C3 counterexample: `typeWriter` called with a null element does not
early-return as a no-op — it throws `typeWriter: element is required`. -/
theorem typewriter_null_element_throws :
    Typewriter.typeWriter ['h', 'i'] none =
      Except.error "typeWriter: element is required" :=
  rfl

/-- C3 amended: initializations that look an element up by id
(`IntroController.init`, `ModalController._init`) handle a missing
element by early-return/no-op, but a null element argument to
`typeWriter` or `typeWriterCancellable` raises (rejects with) an error,
and constructing an `IntroController` without `introId` throws. -/
theorem missing_element_handling (s : IntroController.State)
    (sor isReload : Bool) (text : List Char)
    (h : s.elementPresent = false) :
    IntroController.init sor isReload s = (s, false) ∧
    ModalController.initModal false =
      { modalFound := false, isOpen := false, listenersAttached := false } ∧
    Typewriter.typeWriter text none =
      Except.error "typeWriter: element is required" ∧
    Typewriter.typeWriterCancellable text none =
      Except.error "typeWriterCancellable: element is required" ∧
    IntroController.mkController none =
      Except.error "IntroController: introId is required" := by
  refine ⟨?_, rfl, rfl, rfl, rfl⟩
  simp [IntroController.init, h]

/-- Witness for C3 amended at a concrete element-less state. -/
theorem missing_element_handling_witness :
    IntroController.init true false
      { elementPresent := false, isSkipped := false, isComplete := false,
        sessionFlag := false, sessionSetCount := 0, introHidden := false,
        introRemoved := false, handlersAttached := false, onSkipFired := 0,
        onCompleteFired := 0 } =
      ({ elementPresent := false, isSkipped := false, isComplete := false,
         sessionFlag := false, sessionSetCount := 0, introHidden := false,
         introRemoved := false, handlersAttached := false, onSkipFired := 0,
         onCompleteFired := 0 }, false) ∧
    ModalController.initModal false =
      { modalFound := false, isOpen := false, listenersAttached := false } ∧
    Typewriter.typeWriter ['h'] none =
      Except.error "typeWriter: element is required" ∧
    Typewriter.typeWriterCancellable ['h'] none =
      Except.error "typeWriterCancellable: element is required" ∧
    IntroController.mkController none =
      Except.error "IntroController: introId is required" :=
  missing_element_handling
    { elementPresent := false, isSkipped := false, isComplete := false,
      sessionFlag := false, sessionSetCount := 0, introHidden := false,
      introRemoved := false, handlersAttached := false, onSkipFired := 0,
      onCompleteFired := 0 } true false ['h'] rfl

/-- C1 counterexample: `IntroController.skip` invoked on a running
intro really skips it (fires `onSkip`, marks it skipped) but leaves the
per-session storage flag unset and never calls `setItem`. -/
theorem intro_skip_leaves_session_flag_unset :
    (IntroController.skip
      { elementPresent := true, isSkipped := false, isComplete := false,
        sessionFlag := false, sessionSetCount := 0, introHidden := false,
        introRemoved := false, handlersAttached := true, onSkipFired := 0,
        onCompleteFired := 0 }).isSkipped = true ∧
    (IntroController.skip
      { elementPresent := true, isSkipped := false, isComplete := false,
        sessionFlag := false, sessionSetCount := 0, introHidden := false,
        introRemoved := false, handlersAttached := true, onSkipFired := 0,
        onCompleteFired := 0 }).sessionFlag = false ∧
    (IntroController.skip
      { elementPresent := true, isSkipped := false, isComplete := false,
        sessionFlag := false, sessionSetCount := 0, introHidden := false,
        introRemoved := false, handlersAttached := true, onSkipFired := 0,
        onCompleteFired := 0 }).sessionSetCount = 0 :=
  ⟨rfl, rfl, rfl⟩

/-- C1 amended: for the session-gated typewriter hook, `skip` on any
still-running state renders the full text immediately and writes the
session flag exactly once (the `setItem` counter becomes 1 and stays 1
under any further events); `IntroController.skip` on the other hand
never touches the session flag — only its `complete` does. -/
theorem skip_renders_full_text_and_flags_once
    (text : List Char) (flag0 : Bool)
    (evs evs2 : List SessionTypewriter.Event) (is : IntroController.State)
    (h : (SessionTypewriter.run text flag0 evs).isComplete = false) :
    (SessionTypewriter.skip text
      (SessionTypewriter.run text flag0 evs)).displayText = text ∧
    (SessionTypewriter.skip text
      (SessionTypewriter.run text flag0 evs)).sessionFlag = true ∧
    (SessionTypewriter.skip text
      (SessionTypewriter.run text flag0 evs)).markCount = 1 ∧
    (evs2.foldl (SessionTypewriter.step text)
      (SessionTypewriter.skip text
        (SessionTypewriter.run text flag0 evs))).markCount = 1 ∧
    (IntroController.skip is).sessionFlag = is.sessionFlag ∧
    (IntroController.skip is).sessionSetCount = is.sessionSetCount := by
  have hinv := st_inv_run text flag0 evs
  have hmc0 : (SessionTypewriter.run text flag0 evs).markCount = 0 :=
    hinv.2.2.1 h
  obtain ⟨d1, d2, d3, d4, d5⟩ := st_skip_running text _ h
  have hmc1 : (SessionTypewriter.skip text
      (SessionTypewriter.run text flag0 evs)).markCount = 1 := by
    rw [d3, hmc0]
  obtain ⟨_, hfold⟩ := st_done_foldl text evs2 _ d5
  exact ⟨d1, d2, hmc1, by rw [hfold, hmc1],
    (ic_skip_flag is).1, (ic_skip_flag is).2.1⟩

/-- Witness for C1 amended at a concrete freshly mounted hook and a
concrete running intro. -/
theorem skip_renders_full_text_and_flags_once_witness :
    (SessionTypewriter.skip ['h', 'i']
      (SessionTypewriter.run ['h', 'i'] false [])).displayText = ['h', 'i'] ∧
    (SessionTypewriter.skip ['h', 'i']
      (SessionTypewriter.run ['h', 'i'] false [])).sessionFlag = true ∧
    (SessionTypewriter.skip ['h', 'i']
      (SessionTypewriter.run ['h', 'i'] false [])).markCount = 1 ∧
    ([SessionTypewriter.Event.commitE, SessionTypewriter.Event.timerE].foldl
      (SessionTypewriter.step ['h', 'i'])
      (SessionTypewriter.skip ['h', 'i']
        (SessionTypewriter.run ['h', 'i'] false []))).markCount = 1 ∧
    (IntroController.skip
      { elementPresent := true, isSkipped := false, isComplete := false,
        sessionFlag := false, sessionSetCount := 0, introHidden := false,
        introRemoved := false, handlersAttached := true, onSkipFired := 0,
        onCompleteFired := 0 }).sessionFlag =
      ({ elementPresent := true, isSkipped := false, isComplete := false,
         sessionFlag := false, sessionSetCount := 0, introHidden := false,
         introRemoved := false, handlersAttached := true, onSkipFired := 0,
         onCompleteFired := 0 } : IntroController.State).sessionFlag ∧
    (IntroController.skip
      { elementPresent := true, isSkipped := false, isComplete := false,
        sessionFlag := false, sessionSetCount := 0, introHidden := false,
        introRemoved := false, handlersAttached := true, onSkipFired := 0,
        onCompleteFired := 0 }).sessionSetCount =
      ({ elementPresent := true, isSkipped := false, isComplete := false,
         sessionFlag := false, sessionSetCount := 0, introHidden := false,
         introRemoved := false, handlersAttached := true, onSkipFired := 0,
         onCompleteFired := 0 } : IntroController.State).sessionSetCount :=
  skip_renders_full_text_and_flags_once ['h', 'i'] false []
    [SessionTypewriter.Event.commitE, SessionTypewriter.Event.timerE]
    { elementPresent := true, isSkipped := false, isComplete := false,
      sessionFlag := false, sessionSetCount := 0, introHidden := false,
      introRemoved := false, handlersAttached := true, onSkipFired := 0,
      onCompleteFired := 0 } (by decide)

/-- C2 counterexample: with the default `showOnRefresh = true` and a
page reload, `IntroController.init` decides to show the intro again
even though the session flag is already set at mount. -/
theorem intro_init_reruns_on_reload_despite_flag :
    (IntroController.init true true
      { elementPresent := true, isSkipped := false, isComplete := false,
        sessionFlag := true, sessionSetCount := 1, introHidden := false,
        introRemoved := false, handlersAttached := false, onSkipFired := 0,
        onCompleteFired := 0 }).2 = true :=
  rfl

/-- C2 amended: when the session flag is already set at mount,
`TerminalPrompt` starts at the completed state directly (full text, no
character timer ever scheduled along any run), and `IntroController`
honours the flag when configured with `showOnRefresh = false`, removing
the intro and returning false; with the default `showOnRefresh = true`
the decision is reload-based instead. -/
theorem flag_set_at_mount_starts_completed
    (text : List Char) (evs : List TerminalPrompt.Event)
    (s : IntroController.State) (isReload : Bool)
    (h1 : s.elementPresent = true) (h2 : s.sessionFlag = true) :
    (TerminalPrompt.effect text (TerminalPrompt.mount true)).displayText = text ∧
    (TerminalPrompt.effect text (TerminalPrompt.mount true)).hasPlayed = true ∧
    (TerminalPrompt.effect text (TerminalPrompt.mount true)).currentIndex
      = text.length ∧
    (TerminalPrompt.effect text (TerminalPrompt.mount true)).timerPending
      = false ∧
    (TerminalPrompt.run text true evs).timerPending = false ∧
    IntroController.init false isReload s =
      ({ s with introRemoved := true }, false) := by
  refine ⟨?_, ?_, ?_, ?_, ?_, ?_⟩
  · simp [TerminalPrompt.effect, TerminalPrompt.mount]
  · simp [TerminalPrompt.effect, TerminalPrompt.mount]
  · simp [TerminalPrompt.effect, TerminalPrompt.mount]
  · simp [TerminalPrompt.effect, TerminalPrompt.mount]
  · exact (tp_flag_foldl text evs (TerminalPrompt.mount true) rfl rfl).2
  · simp [IntroController.init, h1, h2]

/-- Witness for C2 amended at a concrete text, run and intro state. -/
theorem flag_set_at_mount_starts_completed_witness :
    (TerminalPrompt.effect ['h'] (TerminalPrompt.mount true)).displayText
      = ['h'] ∧
    (TerminalPrompt.effect ['h'] (TerminalPrompt.mount true)).hasPlayed
      = true ∧
    (TerminalPrompt.effect ['h'] (TerminalPrompt.mount true)).currentIndex
      = (['h'] : List Char).length ∧
    (TerminalPrompt.effect ['h'] (TerminalPrompt.mount true)).timerPending
      = false ∧
    (TerminalPrompt.run ['h'] true
      [TerminalPrompt.Event.effectE, TerminalPrompt.Event.timerE]).timerPending
      = false ∧
    IntroController.init false true
      { elementPresent := true, isSkipped := false, isComplete := false,
        sessionFlag := true, sessionSetCount := 1, introHidden := false,
        introRemoved := false, handlersAttached := false, onSkipFired := 0,
        onCompleteFired := 0 } =
      ({ elementPresent := true, isSkipped := false, isComplete := false,
         sessionFlag := true, sessionSetCount := 1, introHidden := false,
         introRemoved := true, handlersAttached := false, onSkipFired := 0,
         onCompleteFired := 0 }, false) :=
  flag_set_at_mount_starts_completed ['h']
    [TerminalPrompt.Event.effectE, TerminalPrompt.Event.timerE]
    { elementPresent := true, isSkipped := false, isComplete := false,
      sessionFlag := true, sessionSetCount := 1, introHidden := false,
      introRemoved := false, handlersAttached := false, onSkipFired := 0,
      onCompleteFired := 0 } true rfl rfl

/-- C5: on every non-skipped run, when the reveal index reaches the
text length the state transitions to completed and the session flag is
written: in the hook's commit, in `TerminalPrompt`'s effect and in
`IntroController.complete`. -/
theorem natural_completion_sets_flag
    (text : List Char) (s : SessionTypewriter.State)
    (p : TerminalPrompt.State) (is : IntroController.State)
    (h1 : s.hasPlayed = false) (h2 : s.isComplete = false)
    (h3 : s.sessionFlag = false) (h4 : s.indexRef = text.length)
    (h5 : p.sessionFlag = false) (h6 : p.hasPlayed = false)
    (h7 : p.currentIndex = text.length)
    (h8 : is.isSkipped = false) (h9 : is.isComplete = false) :
    (SessionTypewriter.commit text s).isComplete = true ∧
    (SessionTypewriter.commit text s).sessionFlag = true ∧
    (SessionTypewriter.commit text s).markCount = s.markCount + 1 ∧
    (TerminalPrompt.effect text p).sessionFlag = true ∧
    (TerminalPrompt.effect text p).hasPlayed = true ∧
    (TerminalPrompt.effect text p).markCount = p.markCount + 1 ∧
    (IntroController.complete is).isComplete = true ∧
    (IntroController.complete is).sessionFlag = true ∧
    (IntroController.complete is).onCompleteFired = is.onCompleteFired + 1 := by
  refine ⟨?_, ?_, ?_, ?_, ?_, ?_, ?_, ?_, ?_⟩
  all_goals first
  | (simp only [SessionTypewriter.commit, SessionTypewriter.markAsPlayed]
     split_ifs <;> simp_all)
  | (simp only [TerminalPrompt.effect]
     split_ifs <;> simp_all)
  | (have hc := ic_hideIntro_fields
      { is with
        isComplete := true
        sessionFlag := true
        sessionSetCount := is.sessionSetCount + 1
        onCompleteFired := is.onCompleteFired + 1 }
     have hcomp : IntroController.complete is = IntroController.hideIntro
        { is with
          isComplete := true
          sessionFlag := true
          sessionSetCount := is.sessionSetCount + 1
          onCompleteFired := is.onCompleteFired + 1 } := by
       simp [IntroController.complete, h8, h9]
     rw [hcomp]
     simp only [hc.2.1, hc.2.2.1, hc.2.2.2.2.2])

/-- Witness for C5 at concrete states whose reveal index has just
reached the text length. -/
theorem natural_completion_sets_flag_witness :
    (SessionTypewriter.commit ['h']
      { sessionFlag := false, markCount := 0, hasPlayed := false,
        didInit := true, displayText := ['h'], isComplete := false,
        indexRef := 1, timerPending := false }).isComplete = true ∧
    (SessionTypewriter.commit ['h']
      { sessionFlag := false, markCount := 0, hasPlayed := false,
        didInit := true, displayText := ['h'], isComplete := false,
        indexRef := 1, timerPending := false }).sessionFlag = true ∧
    (SessionTypewriter.commit ['h']
      { sessionFlag := false, markCount := 0, hasPlayed := false,
        didInit := true, displayText := ['h'], isComplete := false,
        indexRef := 1, timerPending := false }).markCount =
      ({ sessionFlag := false, markCount := 0, hasPlayed := false,
         didInit := true, displayText := ['h'], isComplete := false,
         indexRef := 1, timerPending := false } :
         SessionTypewriter.State).markCount + 1 ∧
    (TerminalPrompt.effect ['h']
      { displayText := ['h'], currentIndex := 1, hasPlayed := false,
        sessionFlag := false, markCount := 0,
        timerPending := false }).sessionFlag = true ∧
    (TerminalPrompt.effect ['h']
      { displayText := ['h'], currentIndex := 1, hasPlayed := false,
        sessionFlag := false, markCount := 0,
        timerPending := false }).hasPlayed = true ∧
    (TerminalPrompt.effect ['h']
      { displayText := ['h'], currentIndex := 1, hasPlayed := false,
        sessionFlag := false, markCount := 0,
        timerPending := false }).markCount =
      ({ displayText := ['h'], currentIndex := 1, hasPlayed := false,
         sessionFlag := false, markCount := 0,
         timerPending := false } : TerminalPrompt.State).markCount + 1 ∧
    (IntroController.complete
      { elementPresent := true, isSkipped := false, isComplete := false,
        sessionFlag := false, sessionSetCount := 0, introHidden := false,
        introRemoved := false, handlersAttached := true, onSkipFired := 0,
        onCompleteFired := 0 }).isComplete = true ∧
    (IntroController.complete
      { elementPresent := true, isSkipped := false, isComplete := false,
        sessionFlag := false, sessionSetCount := 0, introHidden := false,
        introRemoved := false, handlersAttached := true, onSkipFired := 0,
        onCompleteFired := 0 }).sessionFlag = true ∧
    (IntroController.complete
      { elementPresent := true, isSkipped := false, isComplete := false,
        sessionFlag := false, sessionSetCount := 0, introHidden := false,
        introRemoved := false, handlersAttached := true, onSkipFired := 0,
        onCompleteFired := 0 }).onCompleteFired =
      ({ elementPresent := true, isSkipped := false, isComplete := false,
         sessionFlag := false, sessionSetCount := 0, introHidden := false,
         introRemoved := false, handlersAttached := true, onSkipFired := 0,
         onCompleteFired := 0 } : IntroController.State).onCompleteFired + 1 :=
  natural_completion_sets_flag ['h']
    { sessionFlag := false, markCount := 0, hasPlayed := false,
      didInit := true, displayText := ['h'], isComplete := false,
      indexRef := 1, timerPending := false }
    { displayText := ['h'], currentIndex := 1, hasPlayed := false,
      sessionFlag := false, markCount := 0, timerPending := false }
    { elementPresent := true, isSkipped := false, isComplete := false,
      sessionFlag := false, sessionSetCount := 0, introHidden := false,
      introRemoved := false, handlersAttached := true, onSkipFired := 0,
      onCompleteFired := 0 }
    rfl rfl rfl rfl rfl rfl rfl rfl rfl

/-- C7: when a skip occurs or the animating component unmounts, the
pending character timeout is cleared — and stays cleared while the
revealed text stays at the full text under any further events — and
`GlitchAnimator.stop` clears the scheduled glitch timeout, after which
`_scheduleNextGlitch` (as called by a still-pending duration timeout)
schedules nothing. -/
theorem pending_timer_cleared_on_skip_or_unmount
    (text : List Char) (flag0 : Bool)
    (evs evs2 : List SessionTypewriter.Event) (g : GlitchAnimator.State)
    (h : (SessionTypewriter.run text flag0 evs).isComplete = false) :
    (SessionTypewriter.skip text
      (SessionTypewriter.run text flag0 evs)).timerPending = false ∧
    (evs2.foldl (SessionTypewriter.step text)
      (SessionTypewriter.skip text
        (SessionTypewriter.run text flag0 evs))).timerPending = false ∧
    (evs2.foldl (SessionTypewriter.step text)
      (SessionTypewriter.skip text
        (SessionTypewriter.run text flag0 evs))).displayText = text ∧
    (SessionTypewriter.cleanup
      (SessionTypewriter.run text flag0 evs)).timerPending = false ∧
    (GlitchAnimator.stop g).timeoutPending = false ∧
    GlitchAnimator.scheduleNextGlitch (GlitchAnimator.stop g) =
      GlitchAnimator.stop g := by
  obtain ⟨d1, d2, d3, d4, d5⟩ := st_skip_running text _ h
  obtain ⟨⟨_, _, _, f4, _, f6⟩, _⟩ := st_done_foldl text evs2 _ d5
  exact ⟨d4, f6, f4, rfl, rfl, rfl⟩

/-- Witness for C7 at a concrete freshly mounted hook after one commit,
and a concrete running animator. -/
theorem pending_timer_cleared_on_skip_or_unmount_witness :
    (SessionTypewriter.skip ['h', 'i']
      (SessionTypewriter.run ['h', 'i'] false
        [SessionTypewriter.Event.commitE])).timerPending = false ∧
    ([SessionTypewriter.Event.commitE, SessionTypewriter.Event.timerE].foldl
      (SessionTypewriter.step ['h', 'i'])
      (SessionTypewriter.skip ['h', 'i']
        (SessionTypewriter.run ['h', 'i'] false
          [SessionTypewriter.Event.commitE]))).timerPending = false ∧
    ([SessionTypewriter.Event.commitE, SessionTypewriter.Event.timerE].foldl
      (SessionTypewriter.step ['h', 'i'])
      (SessionTypewriter.skip ['h', 'i']
        (SessionTypewriter.run ['h', 'i'] false
          [SessionTypewriter.Event.commitE]))).displayText = ['h', 'i'] ∧
    (SessionTypewriter.cleanup
      (SessionTypewriter.run ['h', 'i'] false
        [SessionTypewriter.Event.commitE])).timerPending = false ∧
    (GlitchAnimator.stop
      { isRunning := true, timeoutPending := true }).timeoutPending = false ∧
    GlitchAnimator.scheduleNextGlitch (GlitchAnimator.stop
      { isRunning := true, timeoutPending := true }) =
      GlitchAnimator.stop { isRunning := true, timeoutPending := true } :=
  pending_timer_cleared_on_skip_or_unmount ['h', 'i'] false
    [SessionTypewriter.Event.commitE]
    [SessionTypewriter.Event.commitE, SessionTypewriter.Event.timerE]
    { isRunning := true, timeoutPending := true } (by decide)
